import Mathlib

/-!
Merlin agent: the `wasm` command pipeline (`commands/wasmer.go`) and the
non-Windows `pipes` stub (`commands/pipes.go`).

`RunWasm` chains eight calls into the network and the Wasmer runtime.  Those
calls are external to the repository, so the embedding takes them as a record
of functions (`Externals`) and records every call, with its outcome, in a
trace of `Event`s.  Go run-time panics (index or slice out of range) are an
explicit `Panic` value in the exit of a run.
-/

set_option linter.dupNamespace false

namespace Merlin

/-! ## Data model -/

/-- The two fields of `jobs.Command` that `RunWasm` reads. -/
structure Command where
  Command : String
  Args : List String
  deriving DecidableEq, Repr

/-- The two fields of `jobs.Results` that `RunWasm` and `Pipes` write. -/
structure Results where
  Stdout : String
  Stderr : String
  deriving DecidableEq, Repr

/-- Severity levels of `cli.Message` used in the two files. -/
inductive Level where
  | DEBUG
  | WARN
  | SUCCESS
  deriving DecidableEq, Repr

/-- Go run-time panics that indexing and slicing `cmd.Args` can raise. -/
inductive Panic where
  | indexOutOfRange (index : Nat) (length : Nat)
  | sliceBoundsOutOfRange (low high : Int) (length : Nat)
  deriving DecidableEq, Repr

/-- The fallible stages of the pipeline, named after what they do. -/
inductive Stage where
  | fetch
  | readBody
  | compile
  | buildSandbox
  | bindImports
  | instantiate
  | resolveEntry
  | invokeEntry
  deriving DecidableEq, Repr

/-- One observable call made by the code.  A stage call carries its outcome:
`none` when the call returned a nil error, `some e` when it returned the error
whose `%+v` rendering is `e`. -/
inductive Event where
  | message (level : Level) (text : String)
  | httpGet (url : String) (err : Option String)
  | readAll (err : Option String)
  | newModule (err : Option String)
  | finalize (program : String) (argument : String) (err : Option String)
  | generateImportObject (err : Option String)
  | newInstance (err : Option String)
  | getWasiStartFunction (err : Option String)
  | start (err : Option String)
  | readStdout (text : String)
  | readStderr (text : String)
  | bodyClose
  deriving DecidableEq, Repr

/-- The network and the Wasmer runtime, as seen by `RunWasm`.  Errors are
carried as their `%+v` rendering.  `call` runs the start function against the
sandbox and returns the sandbox as the payload left it, with the error of the
call if any.  `sprintCommand` is the `%+v` rendering of a `jobs.Command`, whose
declaration is outside the sources. -/
structure Externals where
  Response : Type
  Module : Type
  WasiEnv : Type
  ImportObject : Type
  Instance : Type
  Start : Type
  sprintCommand : Command → String
  httpGet : String → Except String Response
  readAll : Response → Except String (List Nat)
  newModule : List Nat → Except String Module
  finalize : String → String → Except String WasiEnv
  generateImportObject : WasiEnv → Module → Except String ImportObject
  newInstance : Module → ImportObject → Except String Instance
  getWasiStartFunction : Instance → Except String Start
  call : Start → WasiEnv → WasiEnv × Option String
  readStdout : WasiEnv → String
  readStderr : WasiEnv → String

/-- What a block of code leaves behind: the calls it made, the calls it
deferred to function exit, and either a panic or the `results` variable with
which control reaches the label `check`. -/
structure Block where
  trace : List Event
  deferred : List Event
  exit : Except Panic Results

/-- A complete run of a function: every call made, in order, and how the
function ended. -/
structure Run where
  trace : List Event
  exit : Except Panic Results

deriving instance DecidableEq for Except

/-! ## Go primitives -/

/-- Go `xs[i]`: panics when `i` is not below the length. -/
def index (xs : List String) (i : Nat) : Except Panic String :=
  match xs.get? i with
  | some x => .ok x
  | none => .error (.indexOutOfRange i xs.length)

/-- Go `xs[low:high]` for bounds that do not exceed the length (the only use
in the sources has `high = len(xs) - 1`): panics unless
`0 ≤ low ≤ high ≤ len(xs)`. -/
def slice (xs : List String) (low high : Int) : Except Panic (List String) :=
  if 0 ≤ low ∧ low ≤ high ∧ high ≤ (xs.length : Int) then
    .ok ((xs.take high.toNat).drop low.toNat)
  else
    .error (.sliceBoundsOutOfRange low high xs.length)

/-- Go `strings.Join(elems, sep)`. -/
def stringsJoin (elems : List String) (sep : String) : String :=
  sep.intercalate elems

/-- The `%s` rendering of a `[]string`: the elements separated by one space,
in square brackets. -/
def sprintArgs (args : List String) : String :=
  "[" ++ stringsJoin args " " ++ "]"

/-! ## `commands/wasmer.go` -/

/-- The code after the label `check`: diagnostics only. -/
def check (cmd : Command) (results : Results) : List Event :=
  if results.Stderr ≠ "" then
    [ .message .WARN
        ("There was an error executing the command: " ++ cmd.Command ++ " " ++ sprintArgs cmd.Args),
      .message .SUCCESS results.Stdout,
      .message .WARN ("Error: " ++ results.Stderr) ]
  else
    [ .message .SUCCESS ("Command output:\r\n\r\n" ++ results.Stdout) ]

/-- The body of `if cmd.Command == "wasm"`, up to the jump to `check`. -/
def wasmBlock (X : Externals) (cmd : Command) : Block :=
  match index cmd.Args 1 with
  | .error p => ⟨[], [], .error p⟩
  | .ok bytecodeURL =>
  match X.httpGet bytecodeURL with
  | .error err =>
    let errMsg := "Download Wasm Bytecode Failed, URL: " ++ bytecodeURL
    ⟨[.httpGet bytecodeURL (some err), .message .WARN errMsg], [],
      .ok { Stdout := "", Stderr := errMsg }⟩
  | .ok resp =>
  match X.readAll resp with
  | .error err =>
    let errMsg := "Read Response Body Failed"
    ⟨[.httpGet bytecodeURL none, .readAll (some err), .message .WARN errMsg], [.bodyClose],
      .ok { Stdout := "", Stderr := errMsg }⟩
  | .ok bytecode =>
  match X.newModule bytecode with
  | .error err =>
    let errMsg := "Failed to compile module: " ++ err
    ⟨[.httpGet bytecodeURL none, .readAll none, .newModule (some err), .message .WARN errMsg],
      [.bodyClose], .ok { Stdout := "", Stderr := errMsg }⟩
  | .ok module =>
  match slice cmd.Args 1 ((cmd.Args.length : Int) - 1) with
  | .error p =>
    ⟨[.httpGet bytecodeURL none, .readAll none, .newModule none], [.bodyClose], .error p⟩
  | .ok args =>
  match X.finalize "wasi-program" (stringsJoin args " ") with
  | .error err =>
    let errMsg := "Failed to init Wasi Environment: " ++ err
    ⟨[.httpGet bytecodeURL none, .readAll none, .newModule none,
      .finalize "wasi-program" (stringsJoin args " ") (some err), .message .WARN errMsg],
      [.bodyClose], .ok { Stdout := "", Stderr := errMsg }⟩
  | .ok wasiEnv =>
  match X.generateImportObject wasiEnv module with
  | .error err =>
    let errMsg := "Failed to generate import object(wasiEnv.GenerateImportObject): " ++ err
    ⟨[.httpGet bytecodeURL none, .readAll none, .newModule none,
      .finalize "wasi-program" (stringsJoin args " ") none,
      .generateImportObject (some err), .message .WARN errMsg],
      [.bodyClose], .ok { Stdout := "", Stderr := errMsg }⟩
  | .ok importObject =>
  match X.newInstance module importObject with
  | .error err =>
    let errMsg := "Failed to instantiate the module: " ++ err
    ⟨[.httpGet bytecodeURL none, .readAll none, .newModule none,
      .finalize "wasi-program" (stringsJoin args " ") none,
      .generateImportObject none, .newInstance (some err), .message .WARN errMsg],
      [.bodyClose], .ok { Stdout := "", Stderr := errMsg }⟩
  | .ok instance_ =>
  match X.getWasiStartFunction instance_ with
  | .error err =>
    let errMsg := "Failed to get the wasi start function: " ++ err
    ⟨[.httpGet bytecodeURL none, .readAll none, .newModule none,
      .finalize "wasi-program" (stringsJoin args " ") none,
      .generateImportObject none, .newInstance none,
      .getWasiStartFunction (some err), .message .WARN errMsg],
      [.bodyClose], .ok { Stdout := "", Stderr := errMsg }⟩
  | .ok start =>
  match X.call start wasiEnv with
  | (_, some err) =>
    let errMsg := "Failed to execute the wasi start function: " ++ err
    ⟨[.httpGet bytecodeURL none, .readAll none, .newModule none,
      .finalize "wasi-program" (stringsJoin args " ") none,
      .generateImportObject none, .newInstance none,
      .getWasiStartFunction none, .start (some err), .message .WARN errMsg],
      [.bodyClose], .ok { Stdout := "", Stderr := errMsg }⟩
  | (wasiEnv, none) =>
    ⟨[.httpGet bytecodeURL none, .readAll none, .newModule none,
      .finalize "wasi-program" (stringsJoin args " ") none,
      .generateImportObject none, .newInstance none,
      .getWasiStartFunction none, .start none,
      .readStdout (X.readStdout wasiEnv), .readStderr (X.readStderr wasiEnv)],
      [.bodyClose],
      .ok { Stdout := X.readStdout wasiEnv, Stderr := X.readStderr wasiEnv }⟩

/-- The two diagnostics with which `RunWasm` opens. -/
def opening (X : Externals) (cmd : Command) : List Event :=
  [ .message .DEBUG
      ("Received input parameter for RunWasmer function: " ++ X.sprintCommand cmd),
    .message .SUCCESS ("Executing command: " ++ cmd.Command ++ " " ++ sprintArgs cmd.Args) ]

/-- `RunWasm`: the two opening diagnostics, the `wasm` block when the command
name matches, the diagnostics after `check`, and last the deferred calls.  A
panic skips `check` but still runs the deferred calls. -/
def RunWasm (X : Externals) (cmd : Command) : Run :=
  let block : Block :=
    if cmd.Command = "wasm" then wasmBlock X cmd
    else ⟨[], [], .ok { Stdout := "", Stderr := "" }⟩
  match block.exit with
  | .error p => ⟨opening X cmd ++ block.trace ++ block.deferred, .error p⟩
  | .ok results =>
    ⟨opening X cmd ++ block.trace ++ check cmd results ++ block.deferred, .ok results⟩

/-! ## `commands/pipes.go` (build tag `!windows`) -/

/-- `Pipes`: one diagnostic, then the fixed result. -/
def Pipes : Run :=
  ⟨[.message .DEBUG "entering Pipes()..."],
    .ok { Stdout := "", Stderr := "the pipes command is not supported by this agent type" }⟩

/-! ## Observations on a trace -/

/-- The stage a call belongs to, with its outcome; `none` for calls that are
not one of the eight fallible stages. -/
def Event.stage? : Event → Option (Stage × Option String)
  | .httpGet _ e => some (.fetch, e)
  | .readAll e => some (.readBody, e)
  | .newModule e => some (.compile, e)
  | .finalize _ _ e => some (.buildSandbox, e)
  | .generateImportObject e => some (.bindImports, e)
  | .newInstance e => some (.instantiate, e)
  | .getWasiStartFunction e => some (.resolveEntry, e)
  | .start e => some (.invokeEntry, e)
  | _ => none

/-- The stage calls of a trace, in order, each with its outcome. -/
def attempts (t : List Event) : List (Stage × Option String) :=
  t.filterMap Event.stage?

/-- The eight stages in the order of the source text. -/
def pipeline : List Stage :=
  [.fetch, .readBody, .compile, .buildSandbox, .bindImports, .instantiate,
   .resolveEntry, .invokeEntry]

/-- The argument strings handed to the sandbox builder in a trace. -/
def sandboxArguments (t : List Event) : List String :=
  t.filterMap fun
    | .finalize _ a _ => some a
    | _ => none

/-! ## The claimed behaviour, in the words of the specification -/

/-- The text reported when stage `s` fails with error `err`, for the source
URL `url`. -/
def failureText (s : Stage) (url err : String) : String :=
  match s with
  | .fetch => "Download Wasm Bytecode Failed, URL: " ++ url
  | .readBody => "Read Response Body Failed"
  | .compile => "Failed to compile module: " ++ err
  | .buildSandbox => "Failed to init Wasi Environment: " ++ err
  | .bindImports => "Failed to generate import object(wasiEnv.GenerateImportObject): " ++ err
  | .instantiate => "Failed to instantiate the module: " ++ err
  | .resolveEntry => "Failed to get the wasi start function: " ++ err
  | .invokeEntry => "Failed to execute the wasi start function: " ++ err

/-- The elements `args[1], ..., args[n-2]` of an argument list of length `n`,
picked by position. -/
def programArguments (args : List String) : List String :=
  (List.range (args.length - 2)).map fun i => args.getD (i + 1) ""

/-- The call that attempts stage `s`, with outcome `e`. -/
def stageEvent (url arg : String) (s : Stage) (e : Option String) : Event :=
  match s with
  | .fetch => .httpGet url e
  | .readBody => .readAll e
  | .compile => .newModule e
  | .buildSandbox => .finalize "wasi-program" arg e
  | .bindImports => .generateImportObject e
  | .instantiate => .newInstance e
  | .resolveEntry => .getWasiStartFunction e
  | .invokeEntry => .start e

/-- The stages that come before `s` in the pipeline. -/
def stagesBefore (s : Stage) : List Stage :=
  pipeline.takeWhile fun t => t ≠ s

/-- The block in which the stages before `s` succeed and `s` fails with `e`. -/
def failedAt (url arg : String) (s : Stage) (e : String) : Block :=
  ⟨(stagesBefore s).map (fun t => stageEvent url arg t none) ++
      [stageEvent url arg s (some e), .message .WARN (failureText s url e)],
    if s = .fetch then [] else [.bodyClose],
    .ok { Stdout := "", Stderr := failureText s url e }⟩

/-- The block in which all eight stages succeed and the sandbox captured `out`
and `err`. -/
def succeeded (url arg out err : String) : Block :=
  ⟨pipeline.map (fun t => stageEvent url arg t none) ++ [.readStdout out, .readStderr err],
    [.bodyClose],
    .ok { Stdout := out, Stderr := err }⟩

/-! ## A scripted runtime for concrete runs -/

/-- The outcome of each external call, fixed in advance: the error of each
stage (`none` for success) and the text the payload writes to the two captured
streams before the start function returns. -/
structure Script where
  get : Option String
  read : Option String
  compile : Option String
  build : Option String
  bind : Option String
  inst : Option String
  entry : Option String
  run : Option String
  out : String
  err : String

/-- Turn `none` into success and `some e` into the error `e`. -/
def Script.result (e : Option String) : Except String Unit :=
  match e with
  | none => .ok ()
  | some e => .error e

/-- The runtime that follows a script.  The sandbox is the pair of its two
captured streams, empty when built and filled by the call of the start
function. -/
def Script.externals (s : Script) : Externals where
  Response := Unit
  Module := Unit
  WasiEnv := String × String
  ImportObject := Unit
  Instance := Unit
  Start := Unit
  sprintCommand := fun cmd =>
    "\x7bCommand:" ++ cmd.Command ++ " Args:" ++ sprintArgs cmd.Args ++ "\x7d"
  httpGet := fun _ => Script.result s.get
  readAll := fun _ => (Script.result s.read).map fun _ => []
  newModule := fun _ => Script.result s.compile
  finalize := fun _ _ => (Script.result s.build).map fun _ => ("", "")
  generateImportObject := fun _ _ => Script.result s.bind
  newInstance := fun _ _ => Script.result s.inst
  getWasiStartFunction := fun _ => Script.result s.entry
  call := fun _ env => ((env.1 ++ s.out, env.2 ++ s.err), s.run)
  readStdout := fun env => env.1
  readStderr := fun env => env.2

/-- The script in which every stage succeeds and the payload writes `out` and
`err`. -/
def Script.allOk (out err : String) : Script :=
  ⟨none, none, none, none, none, none, none, none, out, err⟩

/-- A command with a URL, one program argument and a trailing element. -/
def sampleCommand : Command :=
  ⟨"wasm", ["wasm", "http://host/a.wasm", "-v", "end"]⟩

/-- The script in which the module does not compile. -/
def Script.badModule : Script :=
  { Script.allOk "" "" with compile := some "bad magic" }

/-- The script in which the payload writes `out` and the start function then
returns the error `trap`. -/
def Script.trapAfter (out trap : String) : Script :=
  { Script.allOk out "" with run := some trap }

/-! ## Lemmas on the Go primitives -/

theorem index_one_of_two_le (xs : List String) (h : 2 ≤ xs.length) :
    index xs 1 = .ok (xs.getD 1 "") := by
  match xs, h with
  | _ :: _ :: _, _ => rfl

theorem slice_of_two_le (xs : List String) (h : 2 ≤ xs.length) :
    slice xs 1 ((xs.length : Int) - 1) = .ok ((xs.take (xs.length - 1)).drop 1) := by
  unfold slice
  have h1 : (0 : Int) ≤ 1 ∧ (1 : Int) ≤ (xs.length : Int) - 1 ∧
      (xs.length : Int) - 1 ≤ (xs.length : Int) := by omega
  have h2 : ((xs.length : Int) - 1).toNat = xs.length - 1 := by omega
  rw [if_pos h1, h2]
  rfl

theorem attempts_append (a b : List Event) : attempts (a ++ b) = attempts a ++ attempts b := by
  simp [attempts, List.filterMap_append]

theorem attempts_check (cmd : Command) (r : Results) : attempts (check cmd r) = [] := by
  unfold check
  split <;> rfl

theorem attempts_opening (X : Externals) (cmd : Command) : attempts (opening X cmd) = [] := rfl

/-- Every run of the `wasm` block on at least two arguments has one of two
shapes: some stage failed after all earlier ones succeeded (and when that stage
is the fetch, `http.Get` returned the error), or all eight succeeded. -/
theorem wasmBlock_shape (X : Externals) (cmd : Command) (hlen : 2 ≤ cmd.Args.length) :
    (∃ s e, wasmBlock X cmd =
      failedAt (cmd.Args.getD 1 "")
        (stringsJoin ((cmd.Args.take (cmd.Args.length - 1)).drop 1) " ") s e ∧
      (s = .fetch → X.httpGet (cmd.Args.getD 1 "") = .error e)) ∨
    (∃ out err, wasmBlock X cmd =
      succeeded (cmd.Args.getD 1 "")
        (stringsJoin ((cmd.Args.take (cmd.Args.length - 1)).drop 1) " ") out err) := by
  unfold wasmBlock
  rw [index_one_of_two_le _ hlen, slice_of_two_le _ hlen]
  dsimp only
  cases hget : X.httpGet (cmd.Args.getD 1 "") with
  | error e => exact Or.inl ⟨.fetch, e, rfl, fun _ => rfl⟩
  | ok resp =>
  dsimp only
  cases X.readAll resp with
  | error e => exact Or.inl ⟨.readBody, e, rfl, by intro h; cases h⟩
  | ok bytecode =>
  dsimp only
  cases X.newModule bytecode with
  | error e => exact Or.inl ⟨.compile, e, rfl, by intro h; cases h⟩
  | ok module =>
  dsimp only
  cases X.finalize "wasi-program"
      (stringsJoin ((cmd.Args.take (cmd.Args.length - 1)).drop 1) " ") with
  | error e => exact Or.inl ⟨.buildSandbox, e, rfl, by intro h; cases h⟩
  | ok wasiEnv =>
  dsimp only
  cases X.generateImportObject wasiEnv module with
  | error e => exact Or.inl ⟨.bindImports, e, rfl, by intro h; cases h⟩
  | ok importObject =>
  dsimp only
  cases X.newInstance module importObject with
  | error e => exact Or.inl ⟨.instantiate, e, rfl, by intro h; cases h⟩
  | ok inst =>
  dsimp only
  cases X.getWasiStartFunction inst with
  | error e => exact Or.inl ⟨.resolveEntry, e, rfl, by intro h; cases h⟩
  | ok start =>
  dsimp only
  rcases X.call start wasiEnv with ⟨env, _ | e⟩
  · exact Or.inr ⟨X.readStdout env, X.readStderr env, rfl⟩
  · exact Or.inl ⟨.invokeEntry, e, rfl, by intro h; cases h⟩

theorem RunWasm_of_failedAt (X : Externals) (cmd : Command) (hname : cmd.Command = "wasm")
    (url arg : String) (s : Stage) (e : String)
    (h : wasmBlock X cmd = failedAt url arg s e) :
    RunWasm X cmd =
      ⟨opening X cmd ++ (failedAt url arg s e).trace ++
          check cmd { Stdout := "", Stderr := failureText s url e } ++
          (failedAt url arg s e).deferred,
        .ok { Stdout := "", Stderr := failureText s url e }⟩ := by
  unfold RunWasm
  rw [if_pos hname, h]
  rfl

theorem RunWasm_of_succeeded (X : Externals) (cmd : Command) (hname : cmd.Command = "wasm")
    (url arg out err : String)
    (h : wasmBlock X cmd = succeeded url arg out err) :
    RunWasm X cmd =
      ⟨opening X cmd ++ (succeeded url arg out err).trace ++
          check cmd { Stdout := out, Stderr := err } ++ [.bodyClose],
        .ok { Stdout := out, Stderr := err }⟩ := by
  unfold RunWasm
  rw [if_pos hname, h]
  rfl

theorem attempts_failedAt (url arg : String) (s : Stage) (e : String) :
    attempts (failedAt url arg s e).trace =
      (stagesBefore s).map (fun t => (t, none)) ++ [(s, some e)] := by
  cases s <;> rfl

theorem attempts_failedAt_deferred (url arg : String) (s : Stage) (e : String) :
    attempts (failedAt url arg s e).deferred = [] := by
  cases s <;> rfl

theorem attempts_succeeded (url arg out err : String) :
    attempts (succeeded url arg out err).trace = pipeline.map (fun t => (t, none)) := rfl

theorem attempts_RunWasm_failedAt (X : Externals) (cmd : Command)
    (hname : cmd.Command = "wasm") (url arg : String) (s : Stage) (e : String)
    (h : wasmBlock X cmd = failedAt url arg s e) :
    attempts (RunWasm X cmd).trace =
      (stagesBefore s).map (fun t => (t, none)) ++ [(s, some e)] := by
  rw [RunWasm_of_failedAt X cmd hname url arg s e h]
  simp only [attempts_append, attempts_opening, attempts_check, attempts_failedAt,
    attempts_failedAt_deferred, List.nil_append, List.append_nil]

theorem attempts_RunWasm_succeeded (X : Externals) (cmd : Command)
    (hname : cmd.Command = "wasm") (url arg out err : String)
    (h : wasmBlock X cmd = succeeded url arg out err) :
    attempts (RunWasm X cmd).trace = pipeline.map (fun t => (t, none)) := by
  rw [RunWasm_of_succeeded X cmd hname url arg out err h]
  simp only [attempts_append, attempts_opening, attempts_check, attempts_succeeded,
    List.nil_append, List.append_nil]
  rfl

theorem append_ne_empty (p s : String) (hp : p ≠ "") : p ++ s ≠ "" := by
  intro h
  apply hp
  have h2 := congrArg String.data h
  rw [String.data_append] at h2
  exact String.ext (List.append_eq_nil.mp h2).1

theorem failureText_ne_empty (s : Stage) (url e : String) : failureText s url e ≠ "" := by
  cases s
  case readBody =>
    show "Read Response Body Failed" ≠ ""
    decide
  all_goals exact append_ne_empty _ _ (by decide)

theorem slice_eq_programArguments (xs : List String) (h : 2 ≤ xs.length) :
    (xs.take (xs.length - 1)).drop 1 = programArguments xs := by
  unfold programArguments
  apply List.ext_getElem
  · simp; omega
  · intro i h1 h2
    simp at h1 h2 ⊢
    have h3 : i + 1 < xs.length := by omega
    rw [List.getElem?_eq_getElem h3]
    rfl

theorem mem_failed_attempts (s t : Stage) (e d : String)
    (h : (s, some e) ∈ (stagesBefore t).map (fun u => (u, (none : Option String))) ++
      [(t, some d)]) : s = t ∧ e = d := by
  simp only [List.mem_append, List.mem_map, List.mem_singleton, Prod.mk.injEq] at h
  rcases h with ⟨_, _, _, h⟩ | ⟨h1, h2⟩
  · cases h
  · exact ⟨h1, Option.some.inj h2⟩

theorem bodyClose_not_mem_check (cmd : Command) (r : Results) :
    Event.bodyClose ∉ check cmd r := by
  unfold check
  split <;> simp

theorem readStdout_not_mem_check (cmd : Command) (r : Results) (t : String) :
    Event.readStdout t ∉ check cmd r := by
  unfold check
  split <;> simp

theorem readStderr_not_mem_check (cmd : Command) (r : Results) (t : String) :
    Event.readStderr t ∉ check cmd r := by
  unfold check
  split <;> simp

theorem sandboxArguments_append (a b : List Event) :
    sandboxArguments (a ++ b) = sandboxArguments a ++ sandboxArguments b := by
  simp [sandboxArguments, List.filterMap_append]

theorem sandboxArguments_check (cmd : Command) (r : Results) :
    sandboxArguments (check cmd r) = [] := by
  unfold check
  split <;> rfl

/-- Once fetch, read and compile have succeeded, a failure can only come from
one of the five later stages. -/
theorem wasmBlock_shape_after_compile (X : Externals) (cmd : Command)
    (hlen : 2 ≤ cmd.Args.length)
    (resp : X.Response) (hget : X.httpGet (cmd.Args.getD 1 "") = .ok resp)
    (bytecode : List Nat) (hread : X.readAll resp = .ok bytecode)
    (module : X.Module) (hcompile : X.newModule bytecode = .ok module) :
    (∃ s e, wasmBlock X cmd =
      failedAt (cmd.Args.getD 1 "")
        (stringsJoin ((cmd.Args.take (cmd.Args.length - 1)).drop 1) " ") s e ∧
      s ≠ .fetch ∧ s ≠ .readBody ∧ s ≠ .compile) ∨
    (∃ out err, wasmBlock X cmd =
      succeeded (cmd.Args.getD 1 "")
        (stringsJoin ((cmd.Args.take (cmd.Args.length - 1)).drop 1) " ") out err) := by
  unfold wasmBlock
  rw [index_one_of_two_le _ hlen, slice_of_two_le _ hlen]
  dsimp only
  rw [hget]
  dsimp only
  rw [hread]
  dsimp only
  rw [hcompile]
  dsimp only
  cases X.finalize "wasi-program"
      (stringsJoin ((cmd.Args.take (cmd.Args.length - 1)).drop 1) " ") with
  | error e => exact Or.inl ⟨.buildSandbox, e, rfl, by decide⟩
  | ok wasiEnv =>
  dsimp only
  cases X.generateImportObject wasiEnv module with
  | error e => exact Or.inl ⟨.bindImports, e, rfl, by decide⟩
  | ok importObject =>
  dsimp only
  cases X.newInstance module importObject with
  | error e => exact Or.inl ⟨.instantiate, e, rfl, by decide⟩
  | ok inst =>
  dsimp only
  cases X.getWasiStartFunction inst with
  | error e => exact Or.inl ⟨.resolveEntry, e, rfl, by decide⟩
  | ok start =>
  dsimp only
  rcases X.call start wasiEnv with ⟨env, _ | e⟩
  · exact Or.inr ⟨X.readStdout env, X.readStderr env, rfl⟩
  · exact Or.inl ⟨.invokeEntry, e, rfl, by decide⟩

/-! ## Claims -/

/-- C1: for a command named "wasm" with at least two arguments, the stages
attempted are an initial segment of the eight-stage sequence; every attempt
but the last one succeeded, so nothing is attempted after a failure; and when
no attempt failed the whole sequence was attempted. -/
theorem RunWasm_stages_fail_fast (X : Externals) (cmd : Command)
    (hname : cmd.Command = "wasm") (hlen : 2 ≤ cmd.Args.length) :
    (attempts (RunWasm X cmd).trace).map Prod.fst <+: pipeline ∧
    (∀ a ∈ (attempts (RunWasm X cmd).trace).dropLast, a.2 = none) ∧
    ((∀ a ∈ attempts (RunWasm X cmd).trace, a.2 = none) →
      (attempts (RunWasm X cmd).trace).map Prod.fst = pipeline) := by
  rcases wasmBlock_shape X cmd hlen with ⟨s, e, h, -⟩ | ⟨out, err, h⟩
  · rw [attempts_RunWasm_failedAt X cmd hname _ _ s e h]
    refine ⟨?_, ?_, ?_⟩
    · cases s <;> simp [stagesBefore, pipeline]
    · cases s <;> simp [stagesBefore, pipeline]
    · intro hall
      have := hall (s, some e) (by simp)
      simp at this
  · rw [attempts_RunWasm_succeeded X cmd hname _ _ out err h]
    refine ⟨?_, ?_, ?_⟩
    · simp [pipeline]
    · simp [pipeline]
    · intro _
      simp [pipeline]

/-- Witness of C1: the sample command against a module that does not compile
attempts fetch, read and compile, and nothing after. -/
theorem RunWasm_stages_fail_fast_witness :
    sampleCommand.Command = "wasm" ∧ 2 ≤ sampleCommand.Args.length ∧
    ((attempts (RunWasm Script.badModule.externals sampleCommand).trace).map Prod.fst
        <+: pipeline ∧
      (∀ a ∈ (attempts (RunWasm Script.badModule.externals sampleCommand).trace).dropLast,
        a.2 = none) ∧
      ((∀ a ∈ attempts (RunWasm Script.badModule.externals sampleCommand).trace, a.2 = none) →
        (attempts (RunWasm Script.badModule.externals sampleCommand).trace).map Prod.fst
          = pipeline)) :=
  ⟨rfl, by decide, RunWasm_stages_fail_fast Script.badModule.externals sampleCommand rfl
    (by decide)⟩

theorem sample_badModule_trace :
    (RunWasm Script.badModule.externals sampleCommand).trace =
      [ .message .DEBUG
          "Received input parameter for RunWasmer function: \x7bCommand:wasm Args:[wasm http://host/a.wasm -v end]\x7d",
        .message .SUCCESS "Executing command: wasm [wasm http://host/a.wasm -v end]",
        .httpGet "http://host/a.wasm" none,
        .readAll none,
        .newModule (some "bad magic"),
        .message .WARN "Failed to compile module: bad magic",
        .message .WARN
          "There was an error executing the command: wasm [wasm http://host/a.wasm -v end]",
        .message .SUCCESS "",
        .message .WARN "Error: Failed to compile module: bad magic",
        .bodyClose ] := by
  decide

/-- C2: for a command named "wasm" with at least two arguments, when a stage
fails the run returns an empty stdout and, as stderr, the text of that stage
alone; the texts of a failed fetch, a failed compile and a missing entry point
are the three the specification spells out. -/
theorem RunWasm_failure_result (X : Externals) (cmd : Command)
    (hname : cmd.Command = "wasm") (hlen : 2 ≤ cmd.Args.length)
    (s : Stage) (e : String) (hfail : (s, some e) ∈ attempts (RunWasm X cmd).trace) :
    (RunWasm X cmd).exit =
      .ok { Stdout := "", Stderr := failureText s (cmd.Args.getD 1 "") e } ∧
    (s = .fetch → (RunWasm X cmd).exit =
      .ok { Stdout := "",
            Stderr := "Download Wasm Bytecode Failed, URL: " ++ cmd.Args.getD 1 "" }) ∧
    (s = .compile → (RunWasm X cmd).exit =
      .ok { Stdout := "", Stderr := "Failed to compile module: " ++ e }) ∧
    (s = .resolveEntry → (RunWasm X cmd).exit =
      .ok { Stdout := "", Stderr := "Failed to get the wasi start function: " ++ e }) := by
  have key : (RunWasm X cmd).exit =
      .ok { Stdout := "", Stderr := failureText s (cmd.Args.getD 1 "") e } := by
    rcases wasmBlock_shape X cmd hlen with ⟨t, d, h, -⟩ | ⟨out, err, h⟩
    · rw [attempts_RunWasm_failedAt X cmd hname _ _ t d h] at hfail
      obtain ⟨rfl, rfl⟩ := mem_failed_attempts s t e d hfail
      rw [RunWasm_of_failedAt X cmd hname _ _ s e h]
    · rw [attempts_RunWasm_succeeded X cmd hname _ _ out err h] at hfail
      simp [pipeline] at hfail
  refine ⟨key, ?_, ?_, ?_⟩
  · rintro rfl
    exact key
  · rintro rfl
    exact key
  · rintro rfl
    exact key

/-- Witness of C2: the sample command against a module that does not compile. -/
theorem RunWasm_failure_result_witness :
    (Stage.compile, some "bad magic") ∈
      attempts (RunWasm Script.badModule.externals sampleCommand).trace ∧
    (RunWasm Script.badModule.externals sampleCommand).exit =
      .ok { Stdout := "", Stderr := "Failed to compile module: bad magic" } :=
  ⟨by decide,
    ((RunWasm_failure_result Script.badModule.externals sampleCommand rfl (by decide)
      .compile "bad magic" (by decide)).2.2.1 rfl).trans (by decide)⟩

/-- C3: for a command named "wasm" with at least two arguments, when all eight
stages succeed the run returns exactly what the sandbox captured on its two
streams after the entry point ran; a payload that wrote "hello" to standard
output and nothing to standard error gives stdout "hello" and an empty
stderr. -/
theorem RunWasm_success_result (X : Externals) (cmd : Command)
    (hname : cmd.Command = "wasm") (hlen : 2 ≤ cmd.Args.length)
    (resp : X.Response) (hget : X.httpGet (cmd.Args.getD 1 "") = .ok resp)
    (bytecode : List Nat) (hread : X.readAll resp = .ok bytecode)
    (module : X.Module) (hcompile : X.newModule bytecode = .ok module)
    (env : X.WasiEnv)
    (hbuild : X.finalize "wasi-program"
      (stringsJoin ((cmd.Args.take (cmd.Args.length - 1)).drop 1) " ") = .ok env)
    (imports : X.ImportObject) (hbind : X.generateImportObject env module = .ok imports)
    (inst : X.Instance) (hinst : X.newInstance module imports = .ok inst)
    (start : X.Start) (hentry : X.getWasiStartFunction inst = .ok start)
    (env1 : X.WasiEnv) (hrun : X.call start env = (env1, none)) :
    (RunWasm X cmd).exit =
      .ok { Stdout := X.readStdout env1, Stderr := X.readStderr env1 } ∧
    (X.readStdout env1 = "hello" → X.readStderr env1 = "" →
      (RunWasm X cmd).exit = .ok { Stdout := "hello", Stderr := "" }) := by
  have key : (RunWasm X cmd).exit =
      .ok { Stdout := X.readStdout env1, Stderr := X.readStderr env1 } := by
    simp only [RunWasm, if_pos hname, wasmBlock, index_one_of_two_le _ hlen,
      slice_of_two_le _ hlen, hget, hread, hcompile, hbuild, hbind, hinst, hentry, hrun]
  refine ⟨key, ?_⟩
  intro h1 h2
  rw [key, h1, h2]

/-- Witness of C3: the sample command against a runtime in which every stage
succeeds and the payload writes "hello" to standard output. -/
theorem RunWasm_success_result_witness :
    (RunWasm (Script.allOk "hello" "").externals sampleCommand).exit =
        .ok { Stdout := "hello", Stderr := "" } :=
  ((RunWasm_success_result (Script.allOk "hello" "").externals sampleCommand rfl (by decide)
    () rfl [] rfl () rfl ("", "") rfl () rfl () rfl () rfl ("hello", "") rfl).2
      (by decide) (by decide))

/-- C4, refuted as stated: the payload writes "hi" to standard output, the
start function then returns an error, and the run returns an empty stdout. -/
theorem RunWasm_trap_drops_output :
    attempts (RunWasm (Script.trapAfter "hi" "trap").externals sampleCommand).trace =
      [(.fetch, none), (.readBody, none), (.compile, none), (.buildSandbox, none),
       (.bindImports, none), (.instantiate, none), (.resolveEntry, none),
       (.invokeEntry, some "trap")] ∧
    (Script.trapAfter "hi" "trap").externals.call () ("", "") = (("hi", ""), some "trap") ∧
    (Script.trapAfter "hi" "trap").externals.readStdout ("hi", "") = "hi" ∧
    (RunWasm (Script.trapAfter "hi" "trap").externals sampleCommand).exit =
      .ok { Stdout := "", Stderr := "Failed to execute the wasi start function: trap" } ∧
    (RunWasm (Script.trapAfter "hi" "trap").externals sampleCommand).exit ≠
      .ok { Stdout := "hi", Stderr := "Failed to execute the wasi start function: trap" } :=
  ⟨by decide, rfl, rfl, by decide, by decide⟩

/-- C4, amended: for a command named "wasm" with at least two arguments, when
the stages up to entry-point resolution succeed and invoking the entry point
fails, the run returns an empty stdout and the execution-failure text as
stderr, and the captured streams are not read. -/
theorem RunWasm_invoke_failure_result (X : Externals) (cmd : Command)
    (hname : cmd.Command = "wasm") (hlen : 2 ≤ cmd.Args.length)
    (resp : X.Response) (hget : X.httpGet (cmd.Args.getD 1 "") = .ok resp)
    (bytecode : List Nat) (hread : X.readAll resp = .ok bytecode)
    (module : X.Module) (hcompile : X.newModule bytecode = .ok module)
    (env : X.WasiEnv)
    (hbuild : X.finalize "wasi-program"
      (stringsJoin ((cmd.Args.take (cmd.Args.length - 1)).drop 1) " ") = .ok env)
    (imports : X.ImportObject) (hbind : X.generateImportObject env module = .ok imports)
    (inst : X.Instance) (hinst : X.newInstance module imports = .ok inst)
    (start : X.Start) (hentry : X.getWasiStartFunction inst = .ok start)
    (env1 : X.WasiEnv) (e : String) (hrun : X.call start env = (env1, some e)) :
    (RunWasm X cmd).exit =
      .ok { Stdout := "", Stderr := "Failed to execute the wasi start function: " ++ e } ∧
    (∀ t, Event.readStdout t ∉ (RunWasm X cmd).trace) ∧
    (∀ t, Event.readStderr t ∉ (RunWasm X cmd).trace) := by
  simp only [RunWasm, if_pos hname, wasmBlock, index_one_of_two_le _ hlen,
    slice_of_two_le _ hlen, hget, hread, hcompile, hbuild, hbind, hinst, hentry, hrun]
  refine ⟨trivial, ?_, ?_⟩
  · intro t
    simp [opening, readStdout_not_mem_check]
  · intro t
    simp [opening, readStderr_not_mem_check]

/-- Witness of C4 as amended: the payload writes "hi" and the start function
then returns the error "trap". -/
theorem RunWasm_invoke_failure_result_witness :
    (RunWasm (Script.trapAfter "hi" "trap").externals sampleCommand).exit =
      .ok { Stdout := "", Stderr := "Failed to execute the wasi start function: " ++ "trap" } :=
  (RunWasm_invoke_failure_result (Script.trapAfter "hi" "trap").externals sampleCommand rfl
    (by decide) () rfl [] rfl () rfl ("", "") rfl () rfl () rfl () rfl ("hi", "") "trap" rfl).1

/-- C5: for a command named "wasm" with `n ≥ 2` arguments whose fetch, read
and compile succeed, the sandbox builder is called once, with the elements
`args[1], ..., args[n-2]` joined by one space; for `n = 2` that is the empty
string. -/
theorem RunWasm_sandbox_argument (X : Externals) (cmd : Command)
    (hname : cmd.Command = "wasm") (hlen : 2 ≤ cmd.Args.length)
    (resp : X.Response) (hget : X.httpGet (cmd.Args.getD 1 "") = .ok resp)
    (bytecode : List Nat) (hread : X.readAll resp = .ok bytecode)
    (module : X.Module) (hcompile : X.newModule bytecode = .ok module) :
    sandboxArguments (RunWasm X cmd).trace = [stringsJoin (programArguments cmd.Args) " "] ∧
    (cmd.Args.length = 2 → sandboxArguments (RunWasm X cmd).trace = [""]) := by
  have key : sandboxArguments (RunWasm X cmd).trace =
      [stringsJoin (programArguments cmd.Args) " "] := by
    rw [← slice_eq_programArguments _ hlen]
    rcases wasmBlock_shape_after_compile X cmd hlen resp hget bytecode hread module hcompile
      with ⟨s, e, h, h1, h2, h3⟩ | ⟨out, err, h⟩
    · rw [RunWasm_of_failedAt X cmd hname _ _ s e h]
      simp only [sandboxArguments_append, sandboxArguments_check]
      cases s <;> first | contradiction | rfl
    · rw [RunWasm_of_succeeded X cmd hname _ _ out err h]
      simp only [sandboxArguments_append, sandboxArguments_check]
      rfl
  refine ⟨key, ?_⟩
  intro h2
  rw [key]
  have : programArguments cmd.Args = [] := by
    unfold programArguments
    rw [h2]
    rfl
  rw [this]
  rfl

/-- Witness of C5: the sample command, whose four arguments leave the URL and
"-v" for the sandbox. -/
theorem RunWasm_sandbox_argument_witness :
    sandboxArguments (RunWasm (Script.allOk "" "").externals sampleCommand).trace =
      ["http://host/a.wasm -v"] :=
  (RunWasm_sandbox_argument (Script.allOk "" "").externals sampleCommand rfl (by decide)
    () rfl [] rfl () rfl).1.trans (by decide)

/-- C6, evaluated at the failing inputs: with no argument or one argument, a
command named "wasm" ends `RunWasm` in an index-out-of-range panic at
`cmd.Args[1]`, whatever the runtime does; no result is returned. -/
theorem RunWasm_short_args_panic (X : Externals) :
    (RunWasm X ⟨"wasm", []⟩).exit = .error (.indexOutOfRange 1 0) ∧
    (∀ a, (RunWasm X ⟨"wasm", [a]⟩).exit = .error (.indexOutOfRange 1 1)) ∧
    attempts (RunWasm X ⟨"wasm", []⟩).trace = [] :=
  ⟨rfl, fun _ => rfl, rfl⟩

/-- C7, refuted as stated: for the command named "pipes", `RunWasm` returns
an empty stderr, not an unsupported-command message. -/
theorem RunWasm_other_name_empty_stderr :
    (RunWasm (Script.allOk "" "").externals ⟨"pipes", []⟩).exit =
      .ok { Stdout := "", Stderr := "" } ∧
    (RunWasm (Script.allOk "" "").externals ⟨"pipes", []⟩).exit ≠
      .ok { Stdout := "", Stderr := "pipes command is not supported by this agent type" } ∧
    (RunWasm (Script.allOk "" "").externals ⟨"pipes", []⟩).exit ≠
      .ok { Stdout := "", Stderr := "the pipes command is not supported by this agent type" } := by
  decide

/-- C7, amended: for a command whose name is not "wasm", `RunWasm` attempts no
stage, makes no call other than diagnostics, and returns an empty stdout and
an empty stderr. -/
theorem RunWasm_other_name (X : Externals) (cmd : Command) (hname : cmd.Command ≠ "wasm") :
    (RunWasm X cmd).exit = .ok { Stdout := "", Stderr := "" } ∧
    attempts (RunWasm X cmd).trace = [] ∧
    (∀ ev ∈ (RunWasm X cmd).trace, ∃ level text, ev = .message level text) := by
  simp only [RunWasm, if_neg hname]
  refine ⟨trivial, rfl, ?_⟩
  intro ev hev
  simp [opening, check] at hev
  rcases hev with h | h | h <;> exact ⟨_, _, h⟩

/-- Witness of C7 as amended: the command named "pipes". -/
theorem RunWasm_other_name_witness :
    (⟨"pipes", []⟩ : Command).Command ≠ "wasm" ∧
    (RunWasm (Script.allOk "" "").externals ⟨"pipes", []⟩).exit =
      .ok { Stdout := "", Stderr := "" } :=
  ⟨by decide, (RunWasm_other_name (Script.allOk "" "").externals ⟨"pipes", []⟩ (by decide)).1⟩

/-- C8: on the non-Windows build `Pipes` returns an empty stdout and the fixed
text "the pipes command is not supported by this agent type" as stderr; its
only call is one diagnostic, so no stage is attempted. -/
theorem Pipes_result :
    Pipes.exit =
      .ok { Stdout := "", Stderr := "the pipes command is not supported by this agent type" } ∧
    Pipes.trace = [.message .DEBUG "entering Pipes()..."] ∧
    attempts Pipes.trace = [] :=
  ⟨rfl, rfl, rfl⟩

/-- C9, refuted as stated: when every stage succeeds, the module is compiled,
the sandbox built and the entry point invoked while the response body is still
open; the release is the last call of the run. -/
theorem RunWasm_body_released_last :
    (Script.allOk "" "").externals.httpGet (sampleCommand.Args.getD 1 "") = .ok () ∧
    Event.newModule none ∈
      (RunWasm (Script.allOk "" "").externals sampleCommand).trace.takeWhile
        (fun ev => ev ≠ Event.bodyClose) ∧
    Event.start none ∈
      (RunWasm (Script.allOk "" "").externals sampleCommand).trace.takeWhile
        (fun ev => ev ≠ Event.bodyClose) ∧
    (RunWasm (Script.allOk "" "").externals sampleCommand).trace.getLast? =
      some Event.bodyClose :=
  ⟨rfl, by decide, by decide, by decide⟩

/-- C9, amended: for a command named "wasm" with at least two arguments whose
fetch succeeds, the response body is released exactly once, as the last call
of the run, after every stage that was attempted and on every exit path,
a failed body read included. -/
theorem RunWasm_body_released_at_exit (X : Externals) (cmd : Command)
    (hname : cmd.Command = "wasm") (hlen : 2 ≤ cmd.Args.length)
    (resp : X.Response) (hget : X.httpGet (cmd.Args.getD 1 "") = .ok resp) :
    ∃ before, (RunWasm X cmd).trace = before ++ [.bodyClose] ∧ Event.bodyClose ∉ before := by
  rcases wasmBlock_shape X cmd hlen with ⟨s, e, h, hs⟩ | ⟨out, err, h⟩
  · have hne : s ≠ .fetch := by
      intro hf
      rw [hs hf] at hget
      cases hget
    rw [RunWasm_of_failedAt X cmd hname _ _ s e h]
    refine ⟨opening X cmd ++
      (failedAt (cmd.Args.getD 1 "")
        (stringsJoin ((cmd.Args.take (cmd.Args.length - 1)).drop 1) " ") s e).trace ++
      check cmd { Stdout := "", Stderr := failureText s (cmd.Args.getD 1 "") e }, ?_, ?_⟩
    · cases s <;> first | contradiction | rfl
    · simp only [List.mem_append, not_or]
      refine ⟨⟨by simp [opening], ?_⟩, bodyClose_not_mem_check _ _⟩
      cases s <;> simp [failedAt, stagesBefore, pipeline, stageEvent]
  · rw [RunWasm_of_succeeded X cmd hname _ _ out err h]
    refine ⟨_, rfl, ?_⟩
    simp only [List.mem_append, not_or]
    exact ⟨⟨by simp [opening], by simp [succeeded, pipeline, stageEvent]⟩,
      bodyClose_not_mem_check _ _⟩

/-- Witness of C9 as amended: the sample command against a response whose
module does not compile. -/
theorem RunWasm_body_released_at_exit_witness :
    Script.badModule.externals.httpGet (sampleCommand.Args.getD 1 "") = .ok () ∧
    ∃ before, (RunWasm Script.badModule.externals sampleCommand).trace =
      before ++ [.bodyClose] ∧ Event.bodyClose ∉ before :=
  ⟨rfl, RunWasm_body_released_at_exit Script.badModule.externals sampleCommand rfl
    (by decide) () rfl⟩

/-- C10: for a command named "wasm" with at least two arguments, a result with
both fields empty comes only from a run in which no stage failed and both
captured streams were read empty; and whenever a stage fails the run returns a
result whose stderr is not empty. -/
theorem RunWasm_empty_result_only_if_clean (X : Externals) (cmd : Command)
    (hname : cmd.Command = "wasm") (hlen : 2 ≤ cmd.Args.length) :
    (∀ r, (RunWasm X cmd).exit = .ok r → r.Stdout = "" → r.Stderr = "" →
      (∀ a ∈ attempts (RunWasm X cmd).trace, a.2 = none) ∧
      Event.readStdout "" ∈ (RunWasm X cmd).trace ∧
      Event.readStderr "" ∈ (RunWasm X cmd).trace) ∧
    ((∃ a ∈ attempts (RunWasm X cmd).trace, a.2 ≠ none) →
      ∃ r, (RunWasm X cmd).exit = .ok r ∧ r.Stderr ≠ "") := by
  rcases wasmBlock_shape X cmd hlen with ⟨s, e, h, -⟩ | ⟨out, err, h⟩
  · have hrun := RunWasm_of_failedAt X cmd hname _ _ s e h
    refine ⟨?_, ?_⟩
    · intro r hr _ hempty
      rw [hrun] at hr
      cases hr
      exact absurd hempty (failureText_ne_empty _ _ _)
    · intro _
      exact ⟨_, by rw [hrun], failureText_ne_empty _ _ _⟩
  · have hrun := RunWasm_of_succeeded X cmd hname _ _ out err h
    have hatt := attempts_RunWasm_succeeded X cmd hname _ _ out err h
    refine ⟨?_, ?_⟩
    · intro r hr hout herr
      rw [hrun] at hr
      cases hr
      simp only at hout herr
      subst hout herr
      refine ⟨?_, ?_, ?_⟩
      · rw [hatt]
        simp [pipeline]
      · rw [hrun]
        simp [succeeded]
      · rw [hrun]
        simp [succeeded]
    · rintro ⟨a, ha, hne⟩
      rw [hatt] at ha
      simp [pipeline] at ha
      rcases ha with rfl | rfl | rfl | rfl | rfl | rfl | rfl | rfl <;> simp at hne

/-- Witness of C10: the sample command against a module that does not compile
returns a stderr that is not empty. -/
theorem RunWasm_empty_result_only_if_clean_witness :
    ∃ r, (RunWasm Script.badModule.externals sampleCommand).exit = .ok r ∧ r.Stderr ≠ "" :=
  (RunWasm_empty_result_only_if_clean Script.badModule.externals sampleCommand rfl
    (by decide)).2 ⟨(.compile, some "bad magic"), by decide, by decide⟩

end Merlin
